import Mathlib

/-!
Shallow embedding of the concept layer of the devo243/backend-61040 server.

Opaque MongoDB ObjectIds are modelled as `Nat`.  Each concept owns one
collection, modelled as the list of its stored documents together with a
counter supplying the next generated document id (`createOne` appends a
document carrying a fresh id).  JS `async` methods that `throw` are modelled
as functions returning `Except`; state passing is explicit, so an action
that returns `.error e` leaves the caller's state unchanged.  A source
method that calls an async assertion WITHOUT `await` discards the promise:
the rejection is not observed by the caller, which continues normally; such
calls are modelled as discarded `let` bindings.
-/

/-- The two root error kinds of the taxonomy (`NotFoundError`,
`NotAllowedError` in `concepts/errors`). -/
inductive ErrKind where
  | notFound
  | notAllowed
  deriving DecidableEq, Repr

namespace Feeding

/-- `FeedDoc` of `src/server/concepts/feeding.ts`: fields `_id`, `feed`,
`item` (the implicit timestamps of `BaseDoc` play no role here). -/
structure FeedDoc where
  oid : Nat
  feed : Nat
  item : Nat
  deriving DecidableEq, Repr

/-- The `feeds` collection: stored documents plus the next generated id. -/
structure FeedState where
  docs : List FeedDoc
  nextId : Nat
  deriving DecidableEq, Repr

def emptyState : FeedState := ⟨[], 1⟩

/-- Field lookup on a stored feed document, as a MongoDB filter sees it: a
`FeedDoc` stores exactly the fields `_id`, `feed` and `item`; an equality
filter on any other field name (for instance `community`) matches no stored
document. -/
def FeedDoc.fieldVal (d : FeedDoc) : String → Option Nat
  | "_id" => some d.oid
  | "feed" => some d.feed
  | "item" => some d.item
  | _ => none

/-- A document matches a filter when every filter field is present on the
document with the given value. -/
def matchesFilter (d : FeedDoc) (f : List (String × Nat)) : Bool :=
  f.all (fun p => d.fieldVal p.1 == some p.2)

/-- `readOne(filter)`: first stored document matching the filter, if any. -/
def readOne (s : FeedState) (f : List (String × Nat)) : Option FeedDoc :=
  s.docs.find? (fun d => matchesFilter d f)

/-- `createOne({ feed, item })`: append a document with a fresh id. -/
def createOne (s : FeedState) (feed item : Nat) : FeedState :=
  ⟨s.docs ++ [⟨s.nextId, feed, item⟩], s.nextId + 1⟩

/-- `deleteOne(filter)`: remove the first matching document. -/
def deleteOne (s : FeedState) (f : List (String × Nat)) : FeedState :=
  ⟨s.docs.eraseP (fun d => matchesFilter d f), s.nextId⟩

/-- `FeedItemNoMatchError(item, _id)` extends NotFoundError;
`FeedItemExistsError(item, _id)` extends NotAllowedError. -/
inductive FeedError where
  | feedItemNoMatch (item oid : Nat)
  | feedItemExists (item oid : Nat)
  deriving DecidableEq, Repr

def FeedError.kind : FeedError → ErrKind
  | .feedItemNoMatch _ _ => .notFound
  | .feedItemExists _ _ => .notAllowed

/-- `assertItemInFeed(_id, itemId)`.  The source reads
`readOne({ community: _id, item: itemId })`; `community` is not a field of
`FeedDoc`, so this filter matches nothing and the assertion always throws
`FeedItemNoMatchError(itemId, _id)`. -/
def assertItemInFeed (id itemId : Nat) (s : FeedState) : Except FeedError Unit :=
  match readOne s [("community", id), ("item", itemId)] with
  | none => .error (.feedItemNoMatch itemId id)
  | some _ => .ok ()

/-- `assertItemNotInFeed(_id, itemId)`: same nonexistent-field filter, so the
read always comes back empty and the assertion never throws. -/
def assertItemNotInFeed (id itemId : Nat) (s : FeedState) : Except FeedError Unit :=
  match readOne s [("community", id), ("item", itemId)] with
  | some _ => .error (.feedItemExists itemId id)
  | none => .ok ()

/-- `addItem(item, feed)`: awaits `assertItemNotInFeed(item, feed)` (note the
call passes `(item, feed)` into parameters declared `(_id, itemId)`), then
`createOne({ feed, item })`. -/
def addItem (item feed : Nat) (s : FeedState) : Except FeedError (String × FeedState) :=
  match assertItemNotInFeed item feed s with
  | .error e => .error e
  | .ok () => .ok ("An item has been added to a feed!", createOne s feed item)

/-- `deleteItem(item, feed)`: awaits `assertItemInFeed(item, feed)`, then
`deleteOne({ feed, item })`. -/
def deleteItem (item feed : Nat) (s : FeedState) : Except FeedError (String × FeedState) :=
  match assertItemInFeed item feed s with
  | .error e => .error e
  | .ok () =>
      .ok ("An item has been deleted from the community!",
        deleteOne s [("feed", feed), ("item", item)])

/-- `getItems(feed)`: `readMany({ feed })`. -/
def getItems (feed : Nat) (s : FeedState) : List FeedDoc :=
  s.docs.filter (fun d => matchesFilter d [("feed", feed)])

end Feeding

namespace Favoriting

/-- `FavoriteDoc` of `src/server/concepts/favoriting.ts`. -/
structure FavoriteDoc where
  oid : Nat
  user : Nat
  item : Nat
  deriving DecidableEq, Repr

/-- The `favorites` collection. -/
structure FavState where
  docs : List FavoriteDoc
  nextId : Nat
  deriving DecidableEq, Repr

def emptyState : FavState := ⟨[], 1⟩

/-- `readOne({ user, item })`. -/
def readOne (s : FavState) (user item : Nat) : Option FavoriteDoc :=
  s.docs.find? (fun d => d.user == user && d.item == item)

/-- `readOne({ _id })`. -/
def readOneById (s : FavState) (oid : Nat) : Option FavoriteDoc :=
  s.docs.find? (fun d => d.oid == oid)

/-- `readMany({ item })`. -/
def readMany (s : FavState) (item : Nat) : List FavoriteDoc :=
  s.docs.filter (fun d => d.item == item)

/-- `createOne({ user, item })`: returns the generated id and the new state. -/
def createOne (s : FavState) (user item : Nat) : Nat × FavState :=
  (s.nextId, ⟨s.docs ++ [⟨s.nextId, user, item⟩], s.nextId + 1⟩)

/-- `deleteOne({ user, item })`: remove the first matching document. -/
def deleteOne (s : FavState) (user item : Nat) : FavState :=
  ⟨s.docs.eraseP (fun d => d.user == user && d.item == item), s.nextId⟩

/-- `FavoriteItemNoMatchError(user, item)` extends NotFoundError;
`FavoriteItemExistsError(user, item)` extends NotAllowedError. -/
inductive FavError where
  | favoriteItemNoMatch (user item : Nat)
  | favoriteItemExists (user item : Nat)
  deriving DecidableEq, Repr

def FavError.kind : FavError → ErrKind
  | .favoriteItemNoMatch _ _ => .notFound
  | .favoriteItemExists _ _ => .notAllowed

/-- `assertItemIsFavorite(user, item)`. -/
def assertItemIsFavorite (user item : Nat) (s : FavState) : Except FavError Unit :=
  match readOne s user item with
  | none => .error (.favoriteItemNoMatch user item)
  | some _ => .ok ()

/-- `assertItemIsNotFavorite(user, item)`. -/
def assertItemIsNotFavorite (user item : Nat) (s : FavState) : Except FavError Unit :=
  match readOne s user item with
  | some _ => .error (.favoriteItemExists user item)
  | none => .ok ()

/-- `favorite(user, item)`: the source calls
`this.assertItemIsNotFavorite(user, item)` WITHOUT `await`, so the returned
promise (and any rejection) is discarded and execution always proceeds to
`createOne({ user, item })`. -/
def favorite (user item : Nat) (s : FavState) :
    Except FavError (String × Option FavoriteDoc × FavState) :=
  let _discarded := assertItemIsNotFavorite user item s
  let r := createOne s user item
  .ok ("A user has favorited an item!", readOneById r.2 r.1, r.2)

/-- `unfavorite(user, item)`: the source calls
`this.assertItemIsFavorite(user, item)` WITHOUT `await`, so it always
proceeds to `deleteOne({ user, item })`. -/
def unfavorite (user item : Nat) (s : FavState) : Except FavError (String × FavState) :=
  let _discarded := assertItemIsFavorite user item s
  .ok ("A user has unfavorited an item!", deleteOne s user item)

/-- `getNumFavorites(item)`: `readMany` returns a sequence, never null (the
collection contract), so the `favs === null` branch of the source is dead and
the result is always the length of the matching sequence. -/
def getNumFavorites (item : Nat) (s : FavState) : Nat :=
  (readMany s item).length

/-- `getFavorites(user)`: `readMany({ user })`. -/
def getFavorites (user : Nat) (s : FavState) : List FavoriteDoc :=
  s.docs.filter (fun d => d.user == user)

end Favoriting

example : Feeding.addItem 1 2 Feeding.emptyState
    = .ok ("An item has been added to a feed!", ⟨[⟨1, 2, 1⟩], 2⟩) := rfl

example : Feeding.addItem 1 2 ⟨[⟨1, 2, 1⟩], 2⟩
    = .ok ("An item has been added to a feed!", ⟨[⟨1, 2, 1⟩, ⟨2, 2, 1⟩], 3⟩) := rfl

example : Feeding.deleteItem 1 2 ⟨[⟨1, 2, 1⟩], 2⟩
    = .error (.feedItemNoMatch 2 1) := rfl

example : Favoriting.favorite 1 2 Favoriting.emptyState
    = .ok ("A user has favorited an item!", some ⟨1, 1, 2⟩, ⟨[⟨1, 1, 2⟩], 2⟩) := rfl

example : Favoriting.favorite 1 2 ⟨[⟨1, 1, 2⟩], 2⟩
    = .ok ("A user has favorited an item!", some ⟨2, 1, 2⟩, ⟨[⟨1, 1, 2⟩, ⟨2, 1, 2⟩], 3⟩) := rfl

example : Favoriting.unfavorite 1 2 ⟨[⟨1, 1, 2⟩], 2⟩
    = .ok ("A user has unfavorited an item!", ⟨[], 2⟩) := rfl

namespace Communiting

/-!
Model of the Communiting concept as composed into the app: the copy whose
assertions are awaited and invoked with their declared `(_id, user)`
parameter order, and which provides `assertCommunityExists` (required by
`routes.ts`).  The second copy of the concept in the repository, at
`src/server/concepts/communiting.ts`, differs: its `create` does not await
`assertCommunityNotExists`, and its `join`/`leave` pass `(user, _id)` into
assertions declared `(_id, user)`.
-/

/-- `CommunityDoc`: author, title, description, members. -/
structure CommunityDoc where
  oid : Nat
  author : Nat
  title : String
  description : String
  members : List Nat
  deriving DecidableEq, Repr

/-- The `communities` collection. -/
structure CommState where
  docs : List CommunityDoc
  nextId : Nat
  deriving DecidableEq, Repr

def emptyState : CommState := ⟨[], 1⟩

/-- Errors raised by the concept.  `notFoundCommunity _id` is the inline
NotFoundError with message `Community (id) doesn\x27t exist!`; `alreadyExists`
is `NotAllowedError("Community already exists!")`; `communityDoesNotExist` is
`NotFoundError("Community doesn\x27t exist!")` from `assertCommunityExists`;
the remaining constructors are the parameterized error classes of the file. -/
inductive CommError where
  | notFoundCommunity (oid : Nat)
  | alreadyExists
  | communityDoesNotExist
  | authorNoMatch (author oid : Nat)
  | userNoMatch (member oid : Nat)
  | memberExists (member oid : Nat)
  deriving DecidableEq, Repr

def CommError.kind : CommError → ErrKind
  | .notFoundCommunity _ => .notFound
  | .alreadyExists => .notAllowed
  | .communityDoesNotExist => .notFound
  | .authorNoMatch _ _ => .notAllowed
  | .userNoMatch _ _ => .notFound
  | .memberExists _ _ => .notAllowed

/-- `getCommunityByID(_id)`: `readOne({ _id })`. -/
def getCommunityByID (cid : Nat) (s : CommState) : Option CommunityDoc :=
  s.docs.find? (fun c => c.oid == cid)

/-- `getCommunityByTitle(title)`: `readOne({ title })`. -/
def getCommunityByTitle (title : String) (s : CommState) : Option CommunityDoc :=
  s.docs.find? (fun c => c.title == title)

/-- `checkObjectIdInArray(_id, arr)`: linear scan with `ObjectId.equals`. -/
def checkObjectIdInArray (id : Nat) : List Nat → Bool
  | [] => false
  | x :: rest => if id == x then true else checkObjectIdInArray id rest

/-- `assertCommunityNotExists(title)`. -/
def assertCommunityNotExists (title : String) (s : CommState) : Except CommError Unit :=
  match getCommunityByTitle title s with
  | some _ => .error .alreadyExists
  | none => .ok ()

/-- `assertCommunityExists(_id)`. -/
def assertCommunityExists (cid : Nat) (s : CommState) : Except CommError Unit :=
  match getCommunityByID cid s with
  | none => .error .communityDoesNotExist
  | some _ => .ok ()

/-- `assertUserInCommunity(_id, user)`. -/
def assertUserInCommunity (cid user : Nat) (s : CommState) : Except CommError Unit :=
  match getCommunityByID cid s with
  | none => .error (.notFoundCommunity cid)
  | some c =>
      if checkObjectIdInArray user c.members then .ok ()
      else .error (.userNoMatch user cid)

/-- `assertUserNotInCommunity(_id, user)`. -/
def assertUserNotInCommunity (cid user : Nat) (s : CommState) : Except CommError Unit :=
  match getCommunityByID cid s with
  | none => .error (.notFoundCommunity cid)
  | some c =>
      if checkObjectIdInArray user c.members then .error (.memberExists user cid)
      else .ok ()

/-- `assertAuthorIsUser(_id, user)` (the `toString` comparison of two
ObjectIds is equality of the underlying ids). -/
def assertAuthorIsUser (cid user : Nat) (s : CommState) : Except CommError Unit :=
  match getCommunityByID cid s with
  | none => .error (.notFoundCommunity cid)
  | some c =>
      if c.author == user then .ok ()
      else .error (.authorNoMatch user cid)

/-- `createOne({ author, title, description, members })`: returns the
generated id and the new state. -/
def createOne (s : CommState) (author : Nat) (title description : String)
    (members : List Nat) : Nat × CommState :=
  (s.nextId, ⟨s.docs ++ [⟨s.nextId, author, title, description, members⟩], s.nextId + 1⟩)

/-- `create(author, title, description)`: awaits `assertCommunityNotExists`,
then creates with `members = [author]` and reads the new document back. -/
def create (author : Nat) (title description : String) (s : CommState) :
    Except CommError (String × Option CommunityDoc × CommState) :=
  match assertCommunityNotExists title s with
  | .error e => .error e
  | .ok () =>
      let r := createOne s author title description [author]
      .ok ("Community Succesfully Created!", getCommunityByID r.1 r.2, r.2)

/-- `deleteOne({ _id })`: remove the first document with the given id. -/
def deleteOneById (cid : Nat) (s : CommState) : CommState :=
  ⟨s.docs.eraseP (fun c => c.oid == cid), s.nextId⟩

/-- `delete(_id)`: no existence check; `deleteOne({ _id })` then the success
message, whatever the state. -/
def delete (cid : Nat) (s : CommState) : Except CommError (String × CommState) :=
  .ok ("Community Succesfully Deleted!", deleteOneById cid s)

/-- `getNumMembers(_id)`. -/
def getNumMembers (cid : Nat) (s : CommState) : Except CommError Nat :=
  match getCommunityByID cid s with
  | none => .error (.notFoundCommunity cid)
  | some c => .ok c.members.length

/-- `partialUpdateOne({ _id }, { members })`: replace the `members` field of
the first document with the given id. -/
def updateOneMembers : List CommunityDoc → Nat → List Nat → List CommunityDoc
  | [], _, _ => []
  | c :: rest, cid, ms =>
      if c.oid == cid then { c with members := ms } :: rest
      else c :: updateOneMembers rest cid ms

def updateMembers (cid : Nat) (ms : List Nat) (s : CommState) : CommState :=
  ⟨updateOneMembers s.docs cid ms, s.nextId⟩

/-- `join(user, _id)`: reads the community, awaits
`assertUserNotInCommunity(_id, user)`, pushes `user` onto the members array
it read, and writes the array back.  When the first read returned nothing
the assertion has already raised, so the remaining optional-chaining steps
are unreachable; they are modelled as leaving the state unchanged. -/
def join (user cid : Nat) (s : CommState) : Except CommError (String × CommState) :=
  let community := getCommunityByID cid s
  match assertUserNotInCommunity cid user s with
  | .error e => .error e
  | .ok () =>
      match community with
      | none => .ok ("A user has joined the community!", s)
      | some c =>
          .ok ("A user has joined the community!", updateMembers cid (c.members ++ [user]) s)

/-- `leave(user, _id)`: reads the community, awaits
`assertUserInCommunity(_id, user)`, filters every occurrence of `user` out of
the members array, and writes it back. -/
def leave (user cid : Nat) (s : CommState) : Except CommError (String × CommState) :=
  let community := getCommunityByID cid s
  match assertUserInCommunity cid user s with
  | .error e => .error e
  | .ok () =>
      match community with
      | none => .ok ("A user has left the community!", s)
      | some c =>
          .ok ("A user has left the community!",
            updateMembers cid (c.members.filter (fun e => e != user)) s)

/-- The data-model invariant claimed by the spec: every existing community
has its author in its members array. -/
def authorInvariant (s : CommState) : Prop :=
  ∀ c ∈ s.docs, c.author ∈ c.members

instance (s : CommState) : Decidable (authorInvariant s) := by
  unfold authorInvariant
  infer_instance

end Communiting

namespace Featuring

/-- `FeaturingDoc` of the Featuring concept: a single `item` field. -/
structure FeatureDoc where
  oid : Nat
  item : Nat
  deriving DecidableEq, Repr

/-- The `features` collection. -/
structure FeatState where
  docs : List FeatureDoc
  nextId : Nat
  deriving DecidableEq, Repr

def emptyState : FeatState := ⟨[], 1⟩

/-- Inline errors of the assertions: `NotFoundError("Item is not featured!")`
and `NotAllowedError("Item is already featured!")`. -/
inductive FeatError where
  | itemNotFeatured
  | itemAlreadyFeatured
  deriving DecidableEq, Repr

def FeatError.kind : FeatError → ErrKind
  | .itemNotFeatured => .notFound
  | .itemAlreadyFeatured => .notAllowed

/-- `readOne({ item })`. -/
def readOneItem (s : FeatState) (item : Nat) : Option FeatureDoc :=
  s.docs.find? (fun d => d.item == item)

/-- `createOne({ item })`. -/
def createOne (s : FeatState) (item : Nat) : FeatState :=
  ⟨s.docs ++ [⟨s.nextId, item⟩], s.nextId + 1⟩

/-- `deleteOne({ item })`. -/
def deleteOneItem (s : FeatState) (item : Nat) : FeatState :=
  ⟨s.docs.eraseP (fun d => d.item == item), s.nextId⟩

/-- In JS an ObjectId value is always truthy; the assertions below test the
`item` parameter, not the document they read. -/
def objectIdTruthy (_id : Nat) : Bool := true

/-- `assertItemIsFeatured(item)`: reads the collection (without awaiting the
read) into an unused binding, then tests `if (!item)` — the parameter, which
is always truthy — so it never throws. -/
def assertItemIsFeatured (item : Nat) (s : FeatState) : Except FeatError Unit :=
  let _feature := readOneItem s item
  if !objectIdTruthy item then .error .itemNotFeatured else .ok ()

/-- `assertItemIsNotFeatured(item)`: reads the collection into an unused
binding, then tests `if (item)` — always truthy — so it always throws. -/
def assertItemIsNotFeatured (item : Nat) (s : FeatState) : Except FeatError Unit :=
  let _feature := readOneItem s item
  if objectIdTruthy item then .error .itemAlreadyFeatured else .ok ()

/-- `promote(item, attention)` of a concept constructed with
`minimumAttention = minAtt`.  The source calls
`this.assertItemIsNotFeatured(item)` WITHOUT `await`, so its rejection is
discarded and only the threshold comparison decides the outcome. -/
def promote (minAtt : Int) (item : Nat) (attention : Int) (s : FeatState) :
    Except FeatError (String × FeatState) :=
  let _discarded := assertItemIsNotFeatured item s
  if attention ≥ minAtt then
    .ok ("An item has been added to a feed!", createOne s item)
  else
    .ok ("The item didn\x27t meet the minimum attention.", s)

/-- `depromote(item, attention)`: calls `this.assertItemIsFeatured(item)`
without `await` (and that assertion never throws anyway), then deletes only
when `attention < minimumAttention`. -/
def depromote (minAtt : Int) (item : Nat) (attention : Int) (s : FeatState) :
    Except FeatError (String × FeatState) :=
  let _discarded := assertItemIsFeatured item s
  if attention < minAtt then
    .ok ("An item has been depromoted", deleteOneItem s item)
  else
    .ok ("The item still has the minimum attention.", s)

/-- An item is persisted as featured when some stored document carries it. -/
def isFeatured (item : Nat) (s : FeatState) : Bool :=
  (readOneItem s item).isSome

end Featuring

example : Communiting.create 10 "Hikers" "desc" Communiting.emptyState
    = .ok ("Community Succesfully Created!", some ⟨1, 10, "Hikers", "desc", [10]⟩,
        ⟨[⟨1, 10, "Hikers", "desc", [10]⟩], 2⟩) := rfl

example : Communiting.join 11 1 ⟨[⟨1, 10, "Hikers", "desc", [10]⟩], 2⟩
    = .ok ("A user has joined the community!", ⟨[⟨1, 10, "Hikers", "desc", [10, 11]⟩], 2⟩) := rfl

example : Communiting.leave 11 1 ⟨[⟨1, 10, "Hikers", "desc", [10, 11]⟩], 2⟩
    = .ok ("A user has left the community!", ⟨[⟨1, 10, "Hikers", "desc", [10]⟩], 2⟩) := rfl

example : Communiting.leave 11 1 ⟨[⟨1, 10, "Hikers", "desc", [10]⟩], 2⟩
    = .error (.userNoMatch 11 1) := rfl

example : Featuring.promote 10 1 5 Featuring.emptyState
    = .ok ("The item didn\x27t meet the minimum attention.", Featuring.emptyState) := rfl

example : Featuring.promote 10 1 15 Featuring.emptyState
    = .ok ("An item has been added to a feed!", ⟨[⟨1, 1⟩], 2⟩) := rfl

example : Featuring.depromote 10 1 20 ⟨[⟨1, 1⟩], 2⟩
    = .ok ("The item still has the minimum attention.", ⟨[⟨1, 1⟩], 2⟩) := rfl

namespace Responses

/-- Modelled from the spec: `framework/errors` (defining `formatWith`) is not
under src.  Per the spec, a concrete error carries "a message template with
positional placeholders" and the raw parameter values; formatting substitutes
the arguments positionally.  A template is a sequence of literal pieces and
positional placeholders. -/
inductive TemplatePiece where
  | lit (s : String)
  | arg (i : Nat)
  deriving DecidableEq, Repr

/-- Modelled from the spec: positional substitution of arguments into a
template (`formatWith` of the missing framework file). -/
def formatWith : List TemplatePiece → List String → String
  | [], _ => ""
  | .lit s :: rest, args => s ++ formatWith rest args
  | .arg i :: rest, args => args.getD i "" ++ formatWith rest args

/-- The template of `CommunityAuthorNoMatchError`, which the source states as
the string `(0) is not the author of community (1)` with positional
placeholders at positions 0 and 1. -/
def communityAuthorNoMatchTemplate : List TemplatePiece :=
  [.arg 0, .lit " is not the author of community ", .arg 1]

/-- The client-visible message when no resolver is registered: the raw
template with the raw ids substituted verbatim. -/
def rawAuthorNoMatchMessage (author cid : Nat) : String :=
  formatWith communityAuthorNoMatchTemplate [toString author, toString cid]

/-- The resolver registered by
`Router.registerError(CommunityAuthorNoMatchError, ...)` in `responses.ts`:
it resolves `e.author` to a username (`Authing.getUserById(e.author).username`
— modelled from the spec as a lookup function `getUsername`, the
authenticating concept not being under src) and returns
`e.formatWith(username, e._id)`. -/
def communityAuthorNoMatchResolver (getUsername : Nat → String) (author cid : Nat) : String :=
  formatWith communityAuthorNoMatchTemplate [getUsername author, toString cid]

end Responses

example : Responses.communityAuthorNoMatchResolver (fun _ => "alice") 7 9
    = "alice is not the author of community 9" := rfl

example : Responses.rawAuthorNoMatchMessage 7 9
    = "7 is not the author of community 9" := rfl

/-!
Claim theorems.
-/

/-- C1: the claim states that `addItem` on a present pair fails NotAllowed,
`deleteItem` on an absent pair fails NotFound, `promote` of a featured item
fails NotAllowed and `depromote` of a non-featured item fails NotFound.  The
code violates three of the four clauses: with `(feed 2, item 1)` already
stored, `addItem 1 2` succeeds again and stores a duplicate (the assertion
filters on the nonexistent `community` field, so it never finds the pair);
with item 1 already featured, `promote` (threshold 10, attention 15) succeeds
again and stores a duplicate (its assertion is not awaited); `depromote` of
the non-featured item 5 (attention 3 < 10) returns a success message instead
of NotFound (its assertion tests the always-truthy `item` parameter).  Only
the `deleteItem` clause holds — and `deleteItem` raises NotFound even when
the pair is present. -/
theorem addItem_promote_depromote_guards_eval :
    Feeding.readOne ⟨[⟨1, 2, 1⟩], 2⟩ [("feed", 2), ("item", 1)] = some ⟨1, 2, 1⟩
    ∧ Feeding.addItem 1 2 ⟨[⟨1, 2, 1⟩], 2⟩
      = .ok ("An item has been added to a feed!", ⟨[⟨1, 2, 1⟩, ⟨2, 2, 1⟩], 3⟩)
    ∧ Featuring.isFeatured 1 ⟨[⟨1, 1⟩], 2⟩ = true
    ∧ Featuring.promote 10 1 15 ⟨[⟨1, 1⟩], 2⟩
      = .ok ("An item has been added to a feed!", ⟨[⟨1, 1⟩, ⟨2, 1⟩], 3⟩)
    ∧ Featuring.isFeatured 5 Featuring.emptyState = false
    ∧ Featuring.depromote 10 5 3 Featuring.emptyState
      = .ok ("An item has been depromoted", Featuring.emptyState)
    ∧ Feeding.deleteItem 1 2 Feeding.emptyState = .error (.feedItemNoMatch 2 1)
    ∧ (Feeding.FeedError.feedItemNoMatch 2 1).kind = .notFound :=
  ⟨rfl, rfl, rfl, rfl, rfl, rfl, rfl, rfl⟩

/-- C2: the claim states that a second `favorite(u, X)` fails NotAllowed
without creating a second document, and that `unfavorite(u, X)` on an absent
pair fails NotFound.  The code violates both: `favorite` and `unfavorite`
call their assertions without `await`, so with `(user 1, item 2)` already
favorited a second `favorite` succeeds and stores a second document, and
`unfavorite` of the absent pair succeeds with the usual message.  The
assertions themselves would raise the claimed errors — their rejections are
just never observed. -/
theorem favorite_unfavorite_missing_await_eval :
    Favoriting.favorite 1 2 Favoriting.emptyState
      = .ok ("A user has favorited an item!", some ⟨1, 1, 2⟩, ⟨[⟨1, 1, 2⟩], 2⟩)
    ∧ Favoriting.assertItemIsNotFavorite 1 2 ⟨[⟨1, 1, 2⟩], 2⟩
      = .error (.favoriteItemExists 1 2)
    ∧ Favoriting.favorite 1 2 ⟨[⟨1, 1, 2⟩], 2⟩
      = .ok ("A user has favorited an item!", some ⟨2, 1, 2⟩, ⟨[⟨1, 1, 2⟩, ⟨2, 1, 2⟩], 3⟩)
    ∧ Favoriting.unfavorite 1 2 ⟨[⟨1, 1, 2⟩], 2⟩
      = .ok ("A user has unfavorited an item!", ⟨[], 2⟩)
    ∧ Favoriting.assertItemIsFavorite 1 2 ⟨[], 2⟩ = .error (.favoriteItemNoMatch 1 2)
    ∧ Favoriting.unfavorite 1 2 ⟨[], 2⟩ = .ok ("A user has unfavorited an item!", ⟨[], 2⟩) :=
  ⟨rfl, rfl, rfl, rfl, rfl, rfl⟩

/-- C6: the claim states the add-then-remove round trip restores the pre-add
stored state for both the feed relation and the favorite relation.  It holds
for favorites but fails for feeds: after `addItem 1 2` from the empty state,
`deleteItem 1 2` raises `FeedItemNoMatchError` (its assertion filters on the
nonexistent `community` field), so the added document stays behind. -/
theorem feed_roundtrip_broken_eval :
    Feeding.addItem 1 2 Feeding.emptyState
      = .ok ("An item has been added to a feed!", ⟨[⟨1, 2, 1⟩], 2⟩)
    ∧ Feeding.deleteItem 1 2 ⟨[⟨1, 2, 1⟩], 2⟩ = .error (.feedItemNoMatch 2 1)
    ∧ (⟨[⟨1, 2, 1⟩], 2⟩ : Feeding.FeedState).docs ≠ Feeding.emptyState.docs
    ∧ Favoriting.favorite 3 4 Favoriting.emptyState
      = .ok ("A user has favorited an item!", some ⟨1, 3, 4⟩, ⟨[⟨1, 3, 4⟩], 2⟩)
    ∧ Favoriting.unfavorite 3 4 ⟨[⟨1, 3, 4⟩], 2⟩
      = .ok ("A user has unfavorited an item!", ⟨[], 2⟩)
    ∧ (⟨[], 2⟩ : Favoriting.FavState).docs = Favoriting.emptyState.docs :=
  ⟨rfl, rfl, by decide, rfl, rfl, rfl⟩

/-- C7 (counterexample): the claimed invariant "the author id is always
present in the members array" is violated by a two-step run: user 10 creates
a community (members = [10]) and then leaves it — `leave` has no author
guard, so the members array becomes empty while the author field stays 10. -/
theorem author_leave_breaks_invariant :
    Communiting.create 10 "Hikers" "trails" Communiting.emptyState
      = .ok ("Community Succesfully Created!", some ⟨1, 10, "Hikers", "trails", [10]⟩,
          ⟨[⟨1, 10, "Hikers", "trails", [10]⟩], 2⟩)
    ∧ Communiting.leave 10 1 ⟨[⟨1, 10, "Hikers", "trails", [10]⟩], 2⟩
      = .ok ("A user has left the community!", ⟨[⟨1, 10, "Hikers", "trails", []⟩], 2⟩)
    ∧ ¬ Communiting.authorInvariant ⟨[⟨1, 10, "Hikers", "trails", []⟩], 2⟩ :=
  ⟨rfl, rfl, by decide⟩

/-- C3: in every state that already stores a community titled `t`,
`create(author2, t, description)` fails with the NotAllowed error
"Community already exists!" for any `author2`; since errors carry no
successor state, no new community document is created. -/
theorem create_duplicate_title_not_allowed
    (s : Communiting.CommState) (author2 : Nat) (t d : String)
    (h : (Communiting.getCommunityByTitle t s).isSome = true) :
    Communiting.create author2 t d s = .error .alreadyExists
    ∧ Communiting.CommError.alreadyExists.kind = .notAllowed := by
  refine ⟨?_, rfl⟩
  unfold Communiting.create Communiting.assertCommunityNotExists
  cases hq : Communiting.getCommunityByTitle t s with
  | none => rw [hq] at h; simp at h
  | some c => simp

/-- Witness for C3 at a concrete state holding a community titled "Hikers"
authored by user 10: a second author 99 cannot reuse the title. -/
theorem create_duplicate_title_not_allowed_witness :
    Communiting.create 99 "Hikers" "other" ⟨[⟨1, 10, "Hikers", "desc", [10]⟩], 2⟩
      = .error .alreadyExists
    ∧ Communiting.CommError.alreadyExists.kind = .notAllowed :=
  create_duplicate_title_not_allowed ⟨[⟨1, 10, "Hikers", "desc", [10]⟩], 2⟩ 99
    "Hikers" "other" rfl

/-- C4: promotion gates on the threshold only, and failing the threshold is
a no-op success, never an error: `promote` with `attention < minimumAttention`
returns the informational message and leaves the state unchanged; with
`attention ≥ minimumAttention` it persists the item as featured; `depromote`
of a featured item with `attention ≥ minimumAttention` returns the
informational message and leaves the item featured (state unchanged). -/
theorem promote_depromote_threshold_behavior
    (minAtt attn : Int) (s : Featuring.FeatState) (item : Nat) :
    (attn < minAtt →
      Featuring.promote minAtt item attn s
        = .ok ("The item didn\x27t meet the minimum attention.", s))
    ∧ (minAtt ≤ attn →
      Featuring.promote minAtt item attn s
        = .ok ("An item has been added to a feed!", Featuring.createOne s item)
      ∧ Featuring.isFeatured item (Featuring.createOne s item) = true)
    ∧ (Featuring.isFeatured item s = true → minAtt ≤ attn →
      Featuring.depromote minAtt item attn s
        = .ok ("The item still has the minimum attention.", s)) := by
  refine ⟨fun hlt => ?_, fun hge => ⟨?_, ?_⟩, fun _ hge => ?_⟩
  · unfold Featuring.promote
    rw [if_neg (by omega)]
  · unfold Featuring.promote
    rw [if_pos (by omega)]
  · unfold Featuring.isFeatured Featuring.readOneItem Featuring.createOne
    refine List.find?_isSome.mpr ⟨⟨s.nextId, item⟩, ?_, ?_⟩
    · exact List.mem_append.mpr (Or.inr (List.mem_singleton.mpr rfl))
    · simp
  · unfold Featuring.depromote
    rw [if_neg (by omega)]

/-- Witness for C4 with `minimumAttention = 10`: `promote(1, 5)` is an
informational no-op, `promote(1, 15)` persists item 1 as featured, and
`depromote(1, 20)` on the featured state leaves it unchanged. -/
theorem promote_depromote_threshold_behavior_witness :
    Featuring.promote 10 1 5 Featuring.emptyState
      = .ok ("The item didn\x27t meet the minimum attention.", Featuring.emptyState)
    ∧ Featuring.promote 10 1 15 Featuring.emptyState
      = .ok ("An item has been added to a feed!", ⟨[⟨1, 1⟩], 2⟩)
    ∧ Featuring.isFeatured 1 ⟨[⟨1, 1⟩], 2⟩ = true
    ∧ Featuring.depromote 10 1 20 ⟨[⟨1, 1⟩], 2⟩
      = .ok ("The item still has the minimum attention.", ⟨[⟨1, 1⟩], 2⟩) := by
  refine ⟨(promote_depromote_threshold_behavior 10 5 Featuring.emptyState 1).1 (by decide),
    ?_, ?_, (promote_depromote_threshold_behavior 10 20 ⟨[⟨1, 1⟩], 2⟩ 1).2.2 rfl (by decide)⟩
  · exact ((promote_depromote_threshold_behavior 10 15 Featuring.emptyState 1).2.1
      (by decide)).1
  · exact ((promote_depromote_threshold_behavior 10 15 Featuring.emptyState 1).2.1
      (by decide)).2

/-- C9: `Communiting.delete(_id)` performs no existence check: for every
state and every id it issues `deleteOne({ _id })` and returns the success
message; when no community with that id exists the stored state is unchanged,
so the action is idempotent at the public interface. -/
theorem community_delete_never_fails (s : Communiting.CommState) (cid : Nat) :
    Communiting.delete cid s
      = .ok ("Community Succesfully Deleted!", Communiting.deleteOneById cid s)
    ∧ ((∀ c ∈ s.docs, c.oid ≠ cid) → Communiting.deleteOneById cid s = s) := by
  refine ⟨rfl, fun h => ?_⟩
  unfold Communiting.deleteOneById
  cases s with
  | mk docs nextId =>
      simp only [Communiting.CommState.mk.injEq, and_true]
      exact List.eraseP_of_forall_not (fun c hc => by simpa using h c hc)

/-- Witness for C9: deleting the nonexistent community id 2 succeeds with the
usual message and changes nothing. -/
theorem community_delete_never_fails_witness :
    Communiting.delete 2 ⟨[⟨1, 10, "Hikers", "desc", [10]⟩], 2⟩
      = .ok ("Community Succesfully Deleted!",
          Communiting.deleteOneById 2 ⟨[⟨1, 10, "Hikers", "desc", [10]⟩], 2⟩)
    ∧ Communiting.deleteOneById 2 ⟨[⟨1, 10, "Hikers", "desc", [10]⟩], 2⟩
      = ⟨[⟨1, 10, "Hikers", "desc", [10]⟩], 2⟩ :=
  ⟨(community_delete_never_fails ⟨[⟨1, 10, "Hikers", "desc", [10]⟩], 2⟩ 2).1,
    (community_delete_never_fails ⟨[⟨1, 10, "Hikers", "desc", [10]⟩], 2⟩ 2).2 (by decide)⟩

/-- C10: `getNumFavorites(item)` never raises (it is a total function of the
state): it returns exactly the number of stored favorite documents whose
`item` field equals the given id, and in particular 0 when no user has
favorited the item. -/
theorem getNumFavorites_counts (s : Favoriting.FavState) (item : Nat) :
    Favoriting.getNumFavorites item s = s.docs.countP (fun d => d.item == item)
    ∧ ((∀ d ∈ s.docs, d.item ≠ item) → Favoriting.getNumFavorites item s = 0) := by
  constructor
  · unfold Favoriting.getNumFavorites Favoriting.readMany
    exact (List.countP_eq_length_filter _ _).symm
  · intro h
    unfold Favoriting.getNumFavorites Favoriting.readMany
    refine List.length_eq_zero.mpr (List.filter_eq_nil_iff.mpr ?_)
    intro d hd
    simpa using h d hd

/-- Witness for C10: an item (9) that no user has favorited counts 0 even
when other favorites are stored. -/
theorem getNumFavorites_counts_witness :
    Favoriting.getNumFavorites 9 ⟨[⟨1, 5, 7⟩], 2⟩ = 0 :=
  (getNumFavorites_counts ⟨[⟨1, 5, 7⟩], 2⟩ 9).2 (by decide)

/-- C5: starting from the empty state, any user `alice` creates a community
(members = [alice]); any distinct user `bob` joins, making `getNumMembers`
2; `bob` leaves, making it 1; a second leave by `bob` fails with the
NotFound-kind `CommunityUserNoMatchError` and, errors carrying no successor
state, the membership is unchanged. -/
theorem community_join_leave_scenario (alice bob : Nat) (t d : String) (h : alice ≠ bob) :
    Communiting.create alice t d Communiting.emptyState
      = .ok ("Community Succesfully Created!", some ⟨1, alice, t, d, [alice]⟩,
          ⟨[⟨1, alice, t, d, [alice]⟩], 2⟩)
    ∧ Communiting.join bob 1 ⟨[⟨1, alice, t, d, [alice]⟩], 2⟩
      = .ok ("A user has joined the community!", ⟨[⟨1, alice, t, d, [alice, bob]⟩], 2⟩)
    ∧ Communiting.getNumMembers 1 ⟨[⟨1, alice, t, d, [alice, bob]⟩], 2⟩ = .ok 2
    ∧ Communiting.leave bob 1 ⟨[⟨1, alice, t, d, [alice, bob]⟩], 2⟩
      = .ok ("A user has left the community!", ⟨[⟨1, alice, t, d, [alice]⟩], 2⟩)
    ∧ Communiting.getNumMembers 1 ⟨[⟨1, alice, t, d, [alice]⟩], 2⟩ = .ok 1
    ∧ Communiting.leave bob 1 ⟨[⟨1, alice, t, d, [alice]⟩], 2⟩ = .error (.userNoMatch bob 1)
    ∧ (Communiting.CommError.userNoMatch bob 1).kind = .notFound := by
  have hba : (bob == alice) = false := beq_eq_false_iff_ne.mpr (Ne.symm h)
  have hab : (alice != bob) = true := bne_iff_ne.mpr h
  refine ⟨rfl, ?_, rfl, ?_, rfl, ?_, rfl⟩
  · simp [Communiting.join, Communiting.assertUserNotInCommunity,
      Communiting.getCommunityByID, Communiting.checkObjectIdInArray,
      Communiting.updateMembers, Communiting.updateOneMembers, List.find?, hba]
  · simp [Communiting.leave, Communiting.assertUserInCommunity,
      Communiting.getCommunityByID, Communiting.checkObjectIdInArray,
      Communiting.updateMembers, Communiting.updateOneMembers, List.find?,
      List.filter, hba, hab]
  · simp [Communiting.leave, Communiting.assertUserInCommunity,
      Communiting.getCommunityByID, Communiting.checkObjectIdInArray, List.find?, hba]

/-- Witness for C5 with alice = 10, bob = 11. -/
theorem community_join_leave_scenario_witness :
    Communiting.join 11 1 ⟨[⟨1, 10, "Hikers", "d", [10]⟩], 2⟩
      = .ok ("A user has joined the community!", ⟨[⟨1, 10, "Hikers", "d", [10, 11]⟩], 2⟩)
    ∧ Communiting.getNumMembers 1 ⟨[⟨1, 10, "Hikers", "d", [10, 11]⟩], 2⟩ = .ok 2
    ∧ Communiting.leave 11 1 ⟨[⟨1, 10, "Hikers", "d", [10, 11]⟩], 2⟩
      = .ok ("A user has left the community!", ⟨[⟨1, 10, "Hikers", "d", [10]⟩], 2⟩)
    ∧ Communiting.leave 11 1 ⟨[⟨1, 10, "Hikers", "d", [10]⟩], 2⟩
      = .error (.userNoMatch 11 1) :=
  ⟨(community_join_leave_scenario 10 11 "Hikers" "d" (by decide)).2.1,
   (community_join_leave_scenario 10 11 "Hikers" "d" (by decide)).2.2.1,
   (community_join_leave_scenario 10 11 "Hikers" "d" (by decide)).2.2.2.1,
   (community_join_leave_scenario 10 11 "Hikers" "d" (by decide)).2.2.2.2.2.1⟩

/-- Every document of `updateOneMembers l cid ms` is either an untouched
document of `l` or the first `cid`-document of `l` with its members replaced
by `ms`. -/
lemma mem_updateOneMembers_of_find? {l : List Communiting.CommunityDoc} {cid : Nat}
    {c : Communiting.CommunityDoc} (h : l.find? (fun x => x.oid == cid) = some c)
    {ms : List Nat} {x : Communiting.CommunityDoc}
    (hx : x ∈ Communiting.updateOneMembers l cid ms) :
    x ∈ l ∨ x = { c with members := ms } := by
  induction l with
  | nil => simp [Communiting.updateOneMembers] at hx
  | cons a rest ih =>
      by_cases ha : (a.oid == cid) = true
      · have hc : a = c := by
          have := List.find?_cons_of_pos (p := fun x => x.oid == cid) rest ha
          rw [this] at h
          exact Option.some.inj h
        unfold Communiting.updateOneMembers at hx
        rw [if_pos ha] at hx
        rcases List.mem_cons.mp hx with h1 | h1
        · exact Or.inr (by rw [h1, hc])
        · exact Or.inl (List.mem_cons_of_mem _ h1)
      · have h' : rest.find? (fun x => x.oid == cid) = some c := by
          have := List.find?_cons_of_neg (p := fun x => x.oid == cid) rest
            (by simpa using ha)
          rwa [this] at h
        unfold Communiting.updateOneMembers at hx
        rw [if_neg ha] at hx
        rcases List.mem_cons.mp hx with h1 | h1
        · exact Or.inl (h1 ▸ List.mem_cons_self _ _)
        · rcases ih h' h1 with h2 | h2
          · exact Or.inl (List.mem_cons_of_mem _ h2)
          · exact Or.inr h2

/-- C7 (amended): `create` establishes the author-in-members invariant and
`join` and `delete` preserve it, as does `leave` whenever the leaving user is
not the author of the target community; the unamended invariant fails only
because `leave` lets the author out (see the counterexample). -/
theorem author_in_members_preserved :
    (∀ (a : Nat) (t d : String) (s : Communiting.CommState) m c s',
        Communiting.authorInvariant s →
        Communiting.create a t d s = .ok (m, c, s') →
        Communiting.authorInvariant s')
    ∧ (∀ (u cid : Nat) (s : Communiting.CommState) m s',
        Communiting.authorInvariant s →
        Communiting.join u cid s = .ok (m, s') →
        Communiting.authorInvariant s')
    ∧ (∀ (cid : Nat) (s : Communiting.CommState) m s',
        Communiting.authorInvariant s →
        Communiting.delete cid s = .ok (m, s') →
        Communiting.authorInvariant s')
    ∧ (∀ (u cid : Nat) (s : Communiting.CommState) m s',
        Communiting.authorInvariant s →
        (∀ c ∈ s.docs, c.oid = cid → c.author ≠ u) →
        Communiting.leave u cid s = .ok (m, s') →
        Communiting.authorInvariant s') := by
  refine ⟨?_, ?_, ?_, ?_⟩
  · intro a t d s m c s' hInv hok
    unfold Communiting.create Communiting.assertCommunityNotExists at hok
    cases hq : Communiting.getCommunityByTitle t s with
    | some _ => rw [hq] at hok; exact absurd hok (by simp)
    | none =>
        rw [hq] at hok
        simp only [Except.ok.injEq, Prod.mk.injEq] at hok
        obtain ⟨-, -, hs'⟩ := hok
        intro x hx
        rw [← hs'] at hx
        rcases List.mem_append.mp hx with h1 | h1
        · exact hInv x h1
        · rw [List.mem_singleton.mp h1]
          simp
  · intro u cid s m s' hInv hok
    unfold Communiting.join at hok
    cases ha : Communiting.assertUserNotInCommunity cid u s with
    | error e => rw [ha] at hok; exact absurd hok (by simp)
    | ok uu =>
        rw [ha] at hok
        cases hc : Communiting.getCommunityByID cid s with
        | none =>
            rw [hc] at hok
            simp only [Except.ok.injEq, Prod.mk.injEq] at hok
            exact hok.2 ▸ hInv
        | some c =>
            rw [hc] at hok
            simp only [Except.ok.injEq, Prod.mk.injEq] at hok
            obtain ⟨-, hs'⟩ := hok
            intro x hx
            rw [← hs'] at hx
            rcases mem_updateOneMembers_of_find?
                (by simpa [Communiting.getCommunityByID] using hc) hx with h1 | h1
            · exact hInv x h1
            · rw [h1]
              exact List.mem_append.mpr
                (Or.inl (hInv c (List.mem_of_find?_eq_some
                  (by simpa [Communiting.getCommunityByID] using hc))))
  · intro cid s m s' hInv hok
    unfold Communiting.delete at hok
    simp only [Except.ok.injEq, Prod.mk.injEq] at hok
    obtain ⟨-, hs'⟩ := hok
    intro x hx
    rw [← hs'] at hx
    exact hInv x (List.mem_of_mem_eraseP hx)
  · intro u cid s m s' hInv hne hok
    unfold Communiting.leave at hok
    cases ha : Communiting.assertUserInCommunity cid u s with
    | error e => rw [ha] at hok; exact absurd hok (by simp)
    | ok uu =>
        rw [ha] at hok
        cases hc : Communiting.getCommunityByID cid s with
        | none =>
            rw [hc] at hok
            simp only [Except.ok.injEq, Prod.mk.injEq] at hok
            exact hok.2 ▸ hInv
        | some c =>
            rw [hc] at hok
            simp only [Except.ok.injEq, Prod.mk.injEq] at hok
            obtain ⟨-, hs'⟩ := hok
            have hcfind : s.docs.find? (fun x => x.oid == cid) = some c := by
              simpa [Communiting.getCommunityByID] using hc
            have hcmem : c ∈ s.docs := List.mem_of_find?_eq_some hcfind
            have hcid : c.oid = cid := by
              have := List.find?_some hcfind
              simpa using this
            intro x hx
            rw [← hs'] at hx
            rcases mem_updateOneMembers_of_find? hcfind hx with h1 | h1
            · exact hInv x h1
            · rw [h1]
              exact List.mem_filter.mpr
                ⟨hInv c hcmem, bne_iff_ne.mpr (hne c hcmem hcid)⟩

/-- Witness for C7 (amended): the preservation clause for `join` applied to
the concrete state where user 10 authored community 1 and user 11 joins. -/
theorem author_in_members_preserved_witness :
    Communiting.authorInvariant ⟨[⟨1, 10, "Hikers", "d", [10, 11]⟩], 2⟩ :=
  author_in_members_preserved.2.1 11 1 ⟨[⟨1, 10, "Hikers", "d", [10]⟩], 2⟩
    "A user has joined the community!" ⟨[⟨1, 10, "Hikers", "d", [10, 11]⟩], 2⟩
    (by decide) rfl

/-- C8: for any username resolution, feeding a `CommunityAuthorNoMatchError`
carrying raw ids through its registered resolver substitutes the resolved
username at the first placeholder of the error template, so the message
contains the username; and whenever the username differs from the raw id
string, the enriched message differs from the raw (unresolved) rendering. -/
theorem author_no_match_enrichment (getUsername : Nat → String) (uid cid : Nat) :
    Responses.communityAuthorNoMatchResolver getUsername uid cid
      = getUsername uid ++ (" is not the author of community " ++ toString cid)
    ∧ (getUsername uid ≠ toString uid →
        Responses.communityAuthorNoMatchResolver getUsername uid cid
          ≠ Responses.rawAuthorNoMatchMessage uid cid) := by
  have hform : ∀ x : String,
      Responses.formatWith Responses.communityAuthorNoMatchTemplate [x, toString cid]
        = x ++ (" is not the author of community " ++ toString cid) := by
    intro x
    simp [Responses.formatWith, Responses.communityAuthorNoMatchTemplate]
  refine ⟨hform (getUsername uid), fun hneq heq => hneq ?_⟩
  rw [Responses.communityAuthorNoMatchResolver, hform,
    Responses.rawAuthorNoMatchMessage, hform] at heq
  have hdata := congrArg String.data heq
  rw [String.data_append, String.data_append] at hdata
  exact String.ext (List.append_cancel_right hdata)

/-- Witness for C8: resolving author id 7 to the username "alice" yields the
template message built around "alice", not around the raw id "7". -/
theorem author_no_match_enrichment_witness :
    Responses.communityAuthorNoMatchResolver (fun _ => "alice") 7 9
      = "alice" ++ (" is not the author of community " ++ toString 9)
    ∧ Responses.communityAuthorNoMatchResolver (fun _ => "alice") 7 9
      ≠ Responses.rawAuthorNoMatchMessage 7 9 :=
  ⟨(author_no_match_enrichment (fun _ => "alice") 7 9).1,
   (author_no_match_enrichment (fun _ => "alice") 7 9).2 (by decide)⟩
